import Mathlib

/-!
Verification of the python-gateway repository against its natural-language
specification.  Each Python component relevant to the claims is shallowly
embedded as executable Lean definitions, translated line by line from the
source files:

* `src/services/http_client.py` — `CircuitBreaker` and the retry loop of
  `HttpClientManager.request`;
* `src/controllers/gateway.py`  — route matching in `process_request`, the
  cache-key scheme and caching behaviour of `proxy_request`, and the error
  envelopes of `return_not_found` / `return_error`;
* `src/services/cache.py`       — the lock/suspension structure of
  `CacheManager.get` / `set` / `invalidate`;
* `src/services/token.py`       — `TokenManager.validate_token`.

Python strings are modelled as `List Char`; wall-clock times and durations
(`time.time()`, `recovery_time`, TTLs) are modelled as `Int` — none of the
claims under consideration depends on fractional seconds.
-/

namespace Gateway

/-- Python strings are modelled as lists of characters. -/
abbrev Str := List Char

/-- Literal helper: the character data of a Lean string literal. -/
def str (s : String) : Str := s.data

/-- Decimal rendering of an integer, as Python's f-string interpolation
produces for the `int` values appearing in the claims. -/
def intStr (i : Int) : Str := (toString i).data

/-- Decimal rendering of a natural number. -/
def natStr (n : Nat) : Str := (toString n).data

/-! ## CircuitBreaker (src/services/http_client.py, lines 7-52) -/

/-- The three values of `CircuitBreaker.status`: `"closed"`, `"open"`,
`"half-open"`. -/
inductive BStatus where
  | closed
  | opened
  | halfOpen
deriving DecidableEq, Repr

/-- The mutable fields of `CircuitBreaker` (`__init__`, lines 9-16). -/
structure Breaker where
  status : BStatus
  failures : Nat
  lastFailure : Int
  lastSuccess : Int
  recoveryTime : Int
  retryAttempt : Nat
  resetTimeout : Int
deriving DecidableEq, Repr

/-- `CircuitBreaker.__init__(reset_timeout)` at wall-clock time `t0`
(`last_success = time.time()`). -/
def initBreaker (resetTimeout : Int) (t0 : Int) : Breaker :=
  { status := .closed
    failures := 0
    lastFailure := 0
    lastSuccess := t0
    recoveryTime := resetTimeout
    retryAttempt := 0
    resetTimeout := resetTimeout }

/-- `CircuitBreaker.record_success` (lines 18-24), called at time `now`. -/
def recordSuccess (b : Breaker) (now : Int) : Breaker :=
  { b with
    status := .closed
    failures := 0
    lastSuccess := now
    retryAttempt := 0
    recoveryTime := b.resetTimeout }

/-- `CircuitBreaker.record_failure` (lines 26-37), called at time `now`:
increment the failure counter; at three or more failures open the circuit,
stamp the failure time, and (only when `retry_attempt > 0`) set the
recovery window to `min(reset_timeout * 2 ** retry_attempt, 300)`. -/
def recordFailure (b : Breaker) (now : Int) : Breaker :=
  if 3 ≤ b.failures + 1 then
    if 0 < b.retryAttempt then
      { b with
        failures := b.failures + 1
        status := .opened
        lastFailure := now
        recoveryTime := min (b.resetTimeout * 2 ^ b.retryAttempt) 300 }
    else
      { b with failures := b.failures + 1, status := .opened, lastFailure := now }
  else { b with failures := b.failures + 1 }

/-- `CircuitBreaker.should_allow_request` (lines 39-52) at time `now`:
returns the decision together with the (possibly updated) breaker.  In
`open`, when `now - last_failure >= recovery_time`, transition to
`half-open`, bump `retry_attempt` and allow; otherwise deny.  In any other
state the final `return True` is reached and the breaker is unchanged. -/
def shouldAllowRequest (b : Breaker) (now : Int) : Bool × Breaker :=
  if b.status = .opened then
    if b.recoveryTime ≤ now - b.lastFailure then
      (true, { b with status := .halfOpen, retryAttempt := b.retryAttempt + 1 })
    else (false, b)
  else (true, b)

/-- One atomic mutation of a `CircuitBreaker` object: its three public
methods, each invoked at some wall-clock time. -/
inductive BreakerStep : Breaker → Breaker → Prop where
  | success (b : Breaker) (now : Int) : BreakerStep b (recordSuccess b now)
  | failure (b : Breaker) (now : Int) : BreakerStep b (recordFailure b now)
  | allow (b : Breaker) (now : Int) : BreakerStep b (shouldAllowRequest b now).2

/-- A breaker state is reachable when it arises from a freshly constructed
`CircuitBreaker(reset_timeout)` by some sequence of method calls. -/
def Reachable (resetTimeout t0 : Int) (b : Breaker) : Prop :=
  Relation.ReflTransGen BreakerStep (initBreaker resetTimeout t0) b

/-- The inductive invariant of reachable breaker states. -/
def BreakerInv (rt : Int) (b : Breaker) : Prop :=
  b.resetTimeout = rt ∧
  b.recoveryTime ≤ 300 ∧
  (b.retryAttempt = 0 → b.recoveryTime = rt) ∧
  (b.status = .closed → b.failures < 3)

lemma breakerInv_init (rt t0 : Int) (hrt : rt ≤ 300) :
    BreakerInv rt (initBreaker rt t0) := by
  refine ⟨rfl, hrt, fun _ => rfl, fun _ => ?_⟩
  simp [initBreaker]

lemma breakerInv_recordSuccess (rt : Int) (b : Breaker) (now : Int)
    (hrt : rt ≤ 300) (h : BreakerInv rt b) :
    BreakerInv rt (recordSuccess b now) := by
  obtain ⟨h1, _, _, _⟩ := h
  exact ⟨h1, by simp [recordSuccess, h1, hrt], fun _ => by simp [recordSuccess, h1],
    fun _ => by simp [recordSuccess]⟩

lemma breakerInv_recordFailure (rt : Int) (b : Breaker) (now : Int)
    (h : BreakerInv rt b) :
    BreakerInv rt (recordFailure b now) := by
  obtain ⟨h1, h2, h3, _⟩ := h
  unfold BreakerInv recordFailure
  split_ifs with hge hra
  · exact ⟨h1, min_le_right _ _,
      fun h0 => absurd h0 (Nat.pos_iff_ne_zero.mp hra),
      fun hc => hc.elim⟩
  · exact ⟨h1, h2, fun h0 => h3 h0, fun hc => hc.elim⟩
  · exact ⟨h1, h2, h3, fun _ => show b.failures + 1 < 3 by omega⟩

lemma breakerInv_allow (rt : Int) (b : Breaker) (now : Int)
    (h : BreakerInv rt b) :
    BreakerInv rt (shouldAllowRequest b now).2 := by
  obtain ⟨h1, h2, h3, h4⟩ := h
  unfold BreakerInv shouldAllowRequest
  split_ifs with hs he
  · exact ⟨h1, h2, fun h0 => absurd h0 (Nat.succ_ne_zero _),
      fun hc => hc.elim⟩
  · exact ⟨h1, h2, h3, h4⟩
  · exact ⟨h1, h2, h3, h4⟩

/-- Every reachable breaker state satisfies the invariant (provided the
configured baseline does not itself exceed the 300 s cap). -/
lemma breakerInv_reachable (rt t0 : Int) (b : Breaker)
    (hrt : rt ≤ 300) (h : Reachable rt t0 b) : BreakerInv rt b := by
  induction h with
  | refl => exact breakerInv_init rt t0 hrt
  | tail _ hstep ih =>
    cases hstep with
    | success now => exact breakerInv_recordSuccess rt _ now hrt ih
    | failure now => exact breakerInv_recordFailure rt _ now ih
    | allow now => exact breakerInv_allow rt _ now ih

/-- The failure counter always increments by exactly one. -/
lemma recordFailure_failures (b : Breaker) (now : Int) :
    (recordFailure b now).failures = b.failures + 1 := by
  unfold recordFailure
  split_ifs <;> rfl

/-- At two or more prior failures, `record_failure` leaves the circuit open. -/
lemma recordFailure_opened (b : Breaker) (now : Int) (h : 2 ≤ b.failures) :
    (recordFailure b now).status = .opened := by
  unfold recordFailure
  rw [if_pos (by omega)]
  split_ifs <;> rfl

/-- A breaker driven `open` by three failures at time 0 from a fresh
default breaker (`reset_timeout = 30`). -/
def cbOpen3 : Breaker :=
  recordFailure (recordFailure (recordFailure (initBreaker 30 0) 0) 0) 0

/-- C1 counterexample: after the open → half-open transition (window
elapsed, first `should_allow_request` returns `True`), a second call in the
same cycle — before any `record_success` / `record_failure` — also returns
`True`: the code's final `return True` covers the `half-open` status, so
subsequent callers are NOT treated as open. -/
theorem halfopen_second_admit_cex :
    (shouldAllowRequest cbOpen3 30).1 = true ∧
    (shouldAllowRequest cbOpen3 30).2.status = .halfOpen ∧
    (shouldAllowRequest (shouldAllowRequest cbOpen3 30).2 30).1 = true := by
  decide

/-- C1 (amended): from `open` with the recovery window elapsed,
`should_allow_request` returns `True` and transitions to `half-open`; a
further call in the same cycle, before any `record_success` or
`record_failure`, returns `True` again and leaves the breaker unchanged
(every half-open caller is admitted, not just the first). -/
theorem halfopen_admits_every_caller (b : Breaker) (tOpen now : Int)
    (hopen : b.status = .opened)
    (helapsed : b.recoveryTime ≤ tOpen - b.lastFailure) :
    (shouldAllowRequest b tOpen).1 = true ∧
    (shouldAllowRequest b tOpen).2.status = .halfOpen ∧
    (shouldAllowRequest (shouldAllowRequest b tOpen).2 now).1 = true ∧
    (shouldAllowRequest (shouldAllowRequest b tOpen).2 now).2 =
      (shouldAllowRequest b tOpen).2 := by
  simp only [shouldAllowRequest, hopen, if_pos rfl, if_pos helapsed]
  refine ⟨rfl, rfl, ?_, ?_⟩ <;> simp

/-- C1 amended-claim witness at a concrete reachable state. -/
theorem halfopen_admits_every_caller_witness :
    (shouldAllowRequest cbOpen3 30).1 = true ∧
    (shouldAllowRequest cbOpen3 30).2.status = .halfOpen ∧
    (shouldAllowRequest (shouldAllowRequest cbOpen3 30).2 31).1 = true ∧
    (shouldAllowRequest (shouldAllowRequest cbOpen3 30).2 31).2 =
      (shouldAllowRequest cbOpen3 30).2 :=
  halfopen_admits_every_caller cbOpen3 30 31 (by decide) (by decide)

/-- C6: in every reachable state of a default breaker (baseline 30 s) the
recovery window is at most 300 s, and a `record_failure` that brings the
consecutive-failure count to three or more sets the window to
`min(30 · 2^retry_attempt, 300)` when `retry_attempt > 0` and leaves it at
the 30 s baseline otherwise. -/
theorem breaker_backoff_cap (t0 now : Int) (b : Breaker)
    (h : Reachable 30 t0 b) :
    b.recoveryTime ≤ 300 ∧
    (2 ≤ b.failures →
      (recordFailure b now).recoveryTime =
        if 0 < b.retryAttempt then min (30 * 2 ^ b.retryAttempt) 300 else 30) := by
  obtain ⟨h1, h2, h3, _⟩ := breakerInv_reachable 30 t0 b (by norm_num) h
  refine ⟨h2, fun hfail => ?_⟩
  unfold recordFailure
  have hge : 3 ≤ b.failures + 1 := by omega
  rw [if_pos hge]
  by_cases hra : 0 < b.retryAttempt
  · rw [if_pos hra, if_pos hra]
    show min (b.resetTimeout * 2 ^ b.retryAttempt) 300 = min (30 * 2 ^ b.retryAttempt) 300
    rw [h1]
  · rw [if_neg hra, if_neg hra]
    exact h3 (by omega)

/-- C6 witness: a breaker after two failures is reachable and has two
recorded failures, so a third `record_failure` exercises the clause. -/
theorem breaker_backoff_cap_witness :
    (recordFailure (recordFailure (initBreaker 30 0) 0) 0).recoveryTime ≤ 300 ∧
    (2 ≤ (recordFailure (recordFailure (initBreaker 30 0) 0) 0).failures →
      (recordFailure (recordFailure (recordFailure (initBreaker 30 0) 0) 0) 5).recoveryTime =
        if 0 < (recordFailure (recordFailure (initBreaker 30 0) 0) 0).retryAttempt then
          min (30 * 2 ^ (recordFailure (recordFailure (initBreaker 30 0) 0) 0).retryAttempt) 300
        else 30) :=
  breaker_backoff_cap 0 5 _
    (Relation.ReflTransGen.tail
      (Relation.ReflTransGen.tail Relation.ReflTransGen.refl
        (BreakerStep.failure _ 0))
      (BreakerStep.failure _ 0))

/-- C7: from any closed breaker with zero failures, three consecutive
`record_failure` calls reach `open` and a fourth stays `open`; and in every
reachable state, `closed` implies the consecutive-failure counter is
strictly below the opening threshold of three. -/
theorem breaker_threshold (b c : Breaker) (t0 t1 t2 t3 t4 : Int)
    (_hb : b.status = .closed) (hb0 : b.failures = 0)
    (hc : Reachable 30 t0 c) :
    (recordFailure (recordFailure (recordFailure b t1) t2) t3).status = .opened ∧
    (recordFailure (recordFailure (recordFailure (recordFailure b t1) t2) t3) t4).status
      = .opened ∧
    (c.status = .closed → c.failures < 3) := by
  obtain ⟨_, _, _, h4⟩ := breakerInv_reachable 30 t0 c (by norm_num) hc
  have f1 : (recordFailure b t1).failures = 1 := by
    rw [recordFailure_failures, hb0]
  have f2 : (recordFailure (recordFailure b t1) t2).failures = 2 := by
    rw [recordFailure_failures, f1]
  have f3 : (recordFailure (recordFailure (recordFailure b t1) t2) t3).failures = 3 := by
    rw [recordFailure_failures, f2]
  exact ⟨recordFailure_opened _ t3 (by omega), recordFailure_opened _ t4 (by omega), h4⟩

/-- C7 witness at the freshly constructed breaker. -/
theorem breaker_threshold_witness :
    (recordFailure (recordFailure (recordFailure (initBreaker 30 0) 1) 2) 3).status
      = .opened ∧
    (recordFailure (recordFailure (recordFailure (recordFailure (initBreaker 30 0) 1) 2) 3) 4).status
      = .opened ∧
    ((initBreaker 30 0).status = .closed → (initBreaker 30 0).failures < 3) :=
  breaker_threshold (initBreaker 30 0) (initBreaker 30 0) 0 1 2 3 4
    (by decide) (by decide) Relation.ReflTransGen.refl

/-! ## UpstreamClient — `HttpClientManager.request`
(src/services/http_client.py, lines 80-139) -/

/-- The JSON value decoded from an upstream body.  Only the facts the
gateway inspects are modelled: the value itself (as its serialized text)
and its Python truthiness (the `if cached_response:` test in
`proxy_request`). -/
structure JsonVal where
  text : Str
  isTruthy : Bool
deriving DecidableEq, Repr

/-- The parts of an `httpx.Response` the gateway code inspects. -/
structure UpResponse where
  statusCode : Int
  jsonOk : Bool
  jsonBody : JsonVal
  content : Str
  headers : List (Str × Str)
deriving DecidableEq, Repr

/-- The outcome of one `self.client.request(...)` call: a response, or an
`httpx.RequestError`. -/
inductive AttemptOutcome where
  | response (resp : UpResponse)
  | netError
deriving DecidableEq, Repr

/-- A FastAPI `HTTPException(status_code, detail)`. -/
structure HTTPError where
  statusCode : Int
  detail : Str
deriving DecidableEq, Repr

/-- `str(e)` for a (starlette) `HTTPException`:
`f"{self.status_code}: {self.detail}"`. -/
def strExc (e : HTTPError) : Str :=
  intStr e.statusCode ++ str ": " ++ e.detail

/-- The 503 raised when `should_allow_request` denies
(http_client.py lines 100-104). -/
def circuitOpenError (hostB : Str) (recovery : Int) : HTTPError :=
  ⟨503, str "Service " ++ hostB ++ str " is unavailable. Will retry in "
        ++ intStr recovery ++ str "s"⟩

/-- What one loop iteration of `HttpClientManager.request` decided. -/
inductive AttemptResult where
  | denied (recovery : Int)
  | returned (resp : UpResponse)
  | failed
deriving DecidableEq, Repr

/-- One iteration of the retry loop in `HttpClientManager.request`
(lines 98-121) acting on the breaker: consult `should_allow_request`; on a
response with status `< 500` call `record_success` only when the breaker
is `open` or `half-open` and return the response; on a 5xx response or a
transport error call `record_failure`. -/
def clientAttempt (b : Breaker) (now : Int) (outcome : AttemptOutcome) :
    AttemptResult × Breaker :=
  if (shouldAllowRequest b now).1 then
    match outcome with
    | .response resp =>
      if resp.statusCode < 500 then
        if (shouldAllowRequest b now).2.status = .opened ∨
            (shouldAllowRequest b now).2.status = .halfOpen then
          (.returned resp, recordSuccess (shouldAllowRequest b now).2 now)
        else (.returned resp, (shouldAllowRequest b now).2)
      else (.failed, recordFailure (shouldAllowRequest b now).2 now)
    | .netError => (.failed, recordFailure (shouldAllowRequest b now).2 now)
  else
    (.denied (shouldAllowRequest b now).2.recoveryTime, (shouldAllowRequest b now).2)

/-- The retry loop of `HttpClientManager.request` (lines 98-139),
parameterized by the wall-clock time and outcome of each attempt.
`remaining` counts the iterations left of `range(max(1, retries))`.  After
a failed attempt, if the circuit is now open and this was the last attempt
(`attempt == retries - 1`, a Python `int` comparison), a 503 with the
failure count is raised; exhausting the loop raises the final 502. -/
def requestGo (hostB : Str) (retries : Nat) (times : Nat → Int)
    (oracle : Nat → AttemptOutcome) :
    Breaker → Nat → Nat → Except HTTPError (UpResponse × Breaker)
  | _, _, 0 =>
    .error ⟨502, str "Service " ++ hostB ++ str " unavailable after "
            ++ natStr retries ++ str " attempts"⟩
  | b, attempt, remaining + 1 =>
    match clientAttempt b (times attempt) (oracle attempt) with
    | (.denied recovery, _) => .error (circuitOpenError hostB recovery)
    | (.returned resp, b2) => .ok (resp, b2)
    | (.failed, b2) =>
      if b2.status = .opened ∧ (attempt : Int) = (retries : Int) - 1 then
        .error ⟨503, str "Service " ++ hostB ++ str " is unavailable after "
                ++ natStr b2.failures ++ str " failures"⟩
      else requestGo hostB retries times oracle b2 (attempt + 1) remaining

/-- `HttpClientManager.request` for host `hostB`: run the retry loop for
`max(1, retries)` attempts starting from breaker state `b`. -/
def clientRequest (hostB : Str) (retries : Nat) (times : Nat → Int)
    (oracle : Nat → AttemptOutcome) (b : Breaker) :
    Except HTTPError (UpResponse × Breaker) :=
  requestGo hostB retries times oracle b 0 (max 1 retries)

/-- A denied `should_allow_request` leaves the breaker unchanged. -/
lemma shouldAllowRequest_denied (b : Breaker) (now : Int)
    (h : (shouldAllowRequest b now).1 = false) :
    shouldAllowRequest b now = (false, b) := by
  unfold shouldAllowRequest at h ⊢
  split_ifs at h ⊢
  all_goals simp_all

/-- C10: in the request loop, a response with status below 500 received
while the breaker is closed does not invoke `record_success` and leaves
every breaker field unchanged; a network error (or 5xx) observed while
closed still increments the consecutive-failure counter by one; and the
failure counter decreases (is reset) during an attempt only when the
breaker was `open` or `half-open` when the successful response was
observed. -/
theorem client_closed_success_frame (b c : Breaker) (now t : Int)
    (resp : UpResponse) (out : AttemptOutcome)
    (hclosed : b.status = .closed) (hst : resp.statusCode < 500)
    (hdec : (clientAttempt c t out).2.failures < c.failures) :
    (clientAttempt b now (.response resp)).2 = b ∧
    (clientAttempt b now .netError).2.failures = b.failures + 1 ∧
    (c.status = .opened ∨ c.status = .halfOpen) := by
  refine ⟨?_, ?_, ?_⟩
  · simp [clientAttempt, shouldAllowRequest, hclosed, hst]
  · have hh : (clientAttempt b now .netError).2 = recordFailure b now := by
      simp [clientAttempt, shouldAllowRequest, hclosed]
    rw [hh, recordFailure_failures]
  · by_contra hnot
    push_neg at hnot
    have hcc : c.status = .closed := by
      cases hs : c.status
      · rfl
      · exact absurd hs hnot.1
      · exact absurd hs hnot.2
    cases out with
    | response resp2 =>
      by_cases h2 : resp2.statusCode < 500
      · have hh : (clientAttempt c t (.response resp2)).2 = c := by
          simp [clientAttempt, shouldAllowRequest, hcc, h2]
        rw [hh] at hdec
        omega
      · have hh : (clientAttempt c t (.response resp2)).2 = recordFailure c t := by
          simp [clientAttempt, shouldAllowRequest, hcc, h2]
        rw [hh, recordFailure_failures] at hdec
        omega
    | netError =>
      have hh : (clientAttempt c t .netError).2 = recordFailure c t := by
        simp [clientAttempt, shouldAllowRequest, hcc]
      rw [hh, recordFailure_failures] at hdec
      omega

/-- C10 witness: a concrete closed breaker with one prior failure and a
200 response; the reset clause is exercised by a half-open breaker whose
trial succeeds. -/
theorem client_closed_success_frame_witness :
    (clientAttempt (recordFailure (initBreaker 30 0) 0) 7
        (.response ⟨200, true, ⟨str "v", true⟩, str "v", []⟩)).2
      = recordFailure (initBreaker 30 0) 0 ∧
    (clientAttempt (recordFailure (initBreaker 30 0) 0) 7 .netError).2.failures
      = (recordFailure (initBreaker 30 0) 0).failures + 1 ∧
    (cbOpen3.status = .opened ∨ cbOpen3.status = .halfOpen) :=
  client_closed_success_frame (recordFailure (initBreaker 30 0) 0) cbOpen3 7 30
    ⟨200, true, ⟨str "v", true⟩, str "v", []⟩
    (.response ⟨200, true, ⟨str "v", true⟩, str "v", []⟩)
    (by decide) (by decide) (by decide)

/-! ## String helpers (Python `str` methods used by the gateway) -/

/-- `s.startswith(pre)`. -/
def startsWithB : Str → Str → Bool
  | _, [] => true
  | [], _ :: _ => false
  | c :: s, p :: pre => c = p && startsWithB s pre

/-- Slash character test. -/
def isSlash (c : Char) : Bool := c = '/'

/-- Python `s.strip()`: remove whitespace from both ends. -/
def pyStrip (s : Str) : Str :=
  ((s.dropWhile Char.isWhitespace).reverse.dropWhile Char.isWhitespace).reverse

/-- `pattern[:-1] if pattern.endswith('/') else pattern`
(gateway.py lines 125-126), phrased on the reversed list. -/
def dropTrailingSlash (s : Str) : Str :=
  match s.reverse with
  | c :: t => if isSlash c then t.reverse else s
  | [] => s

/-- Python `s.strip('/')`: remove `/` from both ends
(right side first; the two sides are independent). -/
def stripSlashes (s : Str) : Str :=
  ((s.reverse.dropWhile isSlash).reverse).dropWhile isSlash

/-! ## RouteTable matching (src/controllers/gateway.py, lines 112-136) -/

/-- One route record as held in `self.routes` after `_load_routes`. -/
structure Route where
  rid : Str
  uri : Str
  predicates : List Str
deriving DecidableEq, Repr

/-- The body of the predicate test in `process_request` (lines 121-129):
only `Path=` predicates are considered; the pattern is the text after
`Path=`, whitespace-stripped, with a trailing slash removed, and the match
is `full_path.startswith(path_pattern.strip('/'))`. -/
def predMatches (fullPath predicate : Str) : Bool :=
  if startsWithB predicate (str "Path=") then
    startsWithB fullPath (stripSlashes (dropTrailingSlash (pyStrip (predicate.drop 5))))
  else false

/-- The route-matching loop of `process_request` (lines 116-142): routes in
declaration order; within a route the first matching predicate breaks with
`service_url = route.get('uri')`; the outer loop stops at the first truthy
`service_url` (an empty upstream is falsy in Python and the scan
continues); no truthy match means the 404 handler runs. -/
def matchRoute : List Route → Str → Option Str
  | [], _ => none
  | r :: rs, p =>
    if r.predicates.any (predMatches p) ∧ r.uri ≠ [] then some r.uri
    else matchRoute rs p

/-- The claim's reading of a predicate (C8 wording): the literal after
trimming slashes and the `Path=` marker. -/
def claimTrimmedPattern (predicate : Str) : Str :=
  stripSlashes (predicate.drop 5)

/-- A single leading slash removed from a path (the claim's "path after
stripping its leading slash"). -/
def stripLeadingSlash : Str → Str
  | c :: rest => if isSlash c then rest else c :: rest
  | [] => []

/-- One predicate as the claim reads it: a `Path=` literal whose trimmed
pattern is a prefix of the (already slash-stripped) path. -/
def claimPredMatches (strippedPath pred : Str) : Bool :=
  startsWithB pred (str "Path=") &&
    startsWithB strippedPath (claimTrimmedPattern pred)

/-- The matcher as the claim states it: first route in declaration order
having a `Path=` predicate whose trimmed literal is a prefix of the path
after stripping its leading slash. -/
def claimMatch : List Route → Str → Option Str
  | [], _ => none
  | r :: rs, p =>
    if r.predicates.any (claimPredMatches (stripLeadingSlash p)) then some r.uri
    else claimMatch rs p

/-! ## ProxyEngine (src/controllers/gateway.py, lines 59-157) -/

/-- The response cache as the proxy sees it: key to decoded JSON value. -/
abbrev CacheMap := List (Str × JsonVal)

/-- Association-list lookup (Python `dict` / cache `get` indexing). -/
def lookupD (k : Str) : List (Str × α) → Option α
  | [] => none
  | (k2, v) :: rest => if k2 = k then some v else lookupD k rest

/-- Association-list insert-or-replace (Python `d[k] = v`; a replaced key
keeps its position, a new key goes to the end). -/
def insertD (k : Str) (v : α) : List (Str × α) → List (Str × α)
  | [] => [(k, v)]
  | (k2, v2) :: rest =>
    if k2 = k then (k2, v) :: rest else (k2, v2) :: insertD k v rest

/-- The cache key computed by `proxy_request` (line 72):
`f"cache:{path}{request.url.query}"`. -/
def gatewayCacheKey (path query : Str) : Str :=
  str "cache:" ++ path ++ query

/-- A cache access performed by the proxy engine. -/
inductive CacheOp where
  | read (key : Str)
  | write (key : Str) (value : JsonVal) (ttl : Int)
deriving DecidableEq, Repr

/-- The key an operation touches. -/
def CacheOp.key : CacheOp → Str
  | .read k => k
  | .write k _ _ => k

/-- What `proxy_request` hands back to `process_request`. -/
inductive GatewayOutcome where
  | jsonResp (v : JsonVal)
  | streamResp (content : Str) (statusCode : Int) (headers : List (Str × Str))
  | envelope (status : Int) (message : Str)
deriving DecidableEq, Repr

/-- The cache consultation of `proxy_request` (lines 74-78): for GET,
`cache_manager.get(cache_key)`, with the hit used only when truthy. -/
def proxyCacheHit (method path query : Str) (cache : CacheMap) : Option JsonVal :=
  if method = str "GET" then
    match lookupD (gatewayCacheKey path query) cache with
    | some v => if v.isTruthy then some v else none
    | none => none
  else none

deriving instance DecidableEq for Except

/-- The result of `proxy_request`: either a returned response or the
`HTTPException` that escaped it, together with the final cache contents
and the log of cache operations performed before returning/raising. -/
structure ProxyResult where
  result : Except HTTPError GatewayOutcome
  cache : CacheMap
  ops : List CacheOp
deriving DecidableEq, Repr

/-- `GatewayController.proxy_request` (lines 59-110) with the upstream
call's outcome `up` supplied as a parameter: for GET, read the cache and
return a truthy hit as a JSON response without contacting the upstream;
otherwise forward, and for a GET whose response is 200 with a JSON body,
store the decoded body under the same key and return it as JSON; anything
else streams through with the upstream status and headers.  An
`HTTPException` raised by the client propagates. -/
def proxyRequest (method path query : Str) (cache : CacheMap) (cacheTtl : Int)
    (up : Except HTTPError UpResponse) : ProxyResult :=
  match proxyCacheHit method path query cache with
  | some v =>
    ⟨.ok (.jsonResp v), cache, [.read (gatewayCacheKey path query)]⟩
  | none =>
    match up with
    | .error e =>
      ⟨.error e, cache,
        if method = str "GET" then [.read (gatewayCacheKey path query)] else []⟩
    | .ok resp =>
      if method = str "GET" ∧ resp.statusCode = 200 ∧ resp.jsonOk then
        ⟨.ok (.jsonResp resp.jsonBody),
          insertD (gatewayCacheKey path query) resp.jsonBody cache,
          [.read (gatewayCacheKey path query),
           .write (gatewayCacheKey path query) resp.jsonBody cacheTtl]⟩
      else
        ⟨.ok (.streamResp resp.content resp.statusCode resp.headers), cache,
          if method = str "GET" then [.read (gatewayCacheKey path query)] else []⟩

/-- `GatewayController.process_request` (lines 112-157): match a route;
a miss returns `return_not_found`'s literal
`{"status": 404, "message": "Resource not found"}`; otherwise run
`proxy_request`, and any exception is caught by the blanket handler and
mapped to `return_error`'s
`{"status": 500, "message": f"Gateway error: {str(e)}"}`. -/
def processRequest (routes : List Route) (fullPath method path query : Str)
    (cache : CacheMap) (cacheTtl : Int) (up : Except HTTPError UpResponse) :
    GatewayOutcome × CacheMap × List CacheOp :=
  match matchRoute routes fullPath with
  | none => (.envelope 404 (str "Resource not found"), cache, [])
  | some _ =>
    match (proxyRequest method path query cache cacheTtl up).result with
    | .ok g =>
      (g, (proxyRequest method path query cache cacheTtl up).cache,
        (proxyRequest method path query cache cacheTtl up).ops)
    | .error e =>
      (.envelope 500 (str "Gateway error: " ++ strExc e),
        (proxyRequest method path query cache cacheTtl up).cache,
        (proxyRequest method path query cache cacheTtl up).ops)

/-! ## Concrete fixtures used by the route/proxy claims -/

/-- A users route as `_load_routes` would produce it. -/
def routeU : Route := ⟨str "u", str "http://u", [str "Path=/users/"]⟩

/-- Route `A with prefix /x` from the claim's first-match example. -/
def routeA : Route := ⟨str "a", str "http://a", [str "Path=/x"]⟩

/-- Route `B with prefix /x/y` from the claim's first-match example. -/
def routeB : Route := ⟨str "b", str "http://b", [str "Path=/x/y"]⟩

/-- A 200 upstream response with a parseable (truthy) JSON body. -/
def okJson : UpResponse := ⟨200, true, ⟨str "j", true⟩, str "j", []⟩

/-! ## C3 — route-miss body -/

/-- C3 counterexample: a path matching no route returns
`{"status": 404, "message": "Resource not found"}` (gateway.py line 153),
not the claimed literal `{"status":404,"message":"No route found"}`. -/
theorem route_miss_body_cex :
    (processRequest [] (str "nope/x") (str "GET") (str "/nope/x") (str "") [] 60
        (.error ⟨502, str "x"⟩)).1
      = .envelope 404 (str "Resource not found") ∧
    GatewayOutcome.envelope 404 (str "Resource not found")
      ≠ .envelope 404 (str "No route found") := by
  decide

/-- C3 (amended): for every request path that matches no route predicate,
`process_request` returns the 404 envelope with message
`"Resource not found"` (and performs no cache operation). -/
theorem route_miss_envelope (routes : List Route) (fullPath method path query : Str)
    (cache : CacheMap) (ttl : Int) (up : Except HTTPError UpResponse)
    (h : matchRoute routes fullPath = none) :
    processRequest routes fullPath method path query cache ttl up
      = (.envelope 404 (str "Resource not found"), cache, []) := by
  unfold processRequest
  rw [h]

/-- C3 amended-claim witness: `GET /nope/x` against the users route. -/
theorem route_miss_envelope_witness :
    processRequest [routeU] (str "nope/x") (str "GET") (str "/nope/x") (str "")
        [] 60 (.error ⟨502, str "x"⟩)
      = (.envelope 404 (str "Resource not found"), [], []) :=
  route_miss_envelope [routeU] (str "nope/x") (str "GET") (str "/nope/x") (str "")
    [] 60 (.error ⟨502, str "x"⟩) (by decide)

/-! ## C4 — cache-key scheme -/

/-- C4 counterexample: for `GET /users/42` (empty query) the key read and
written is `cache:/users/42` (gateway.py line 72), which is not the claimed
`gateway_cache:<METHOD>:<path>:<query>` string. -/
theorem cache_key_scheme_cex :
    (proxyRequest (str "GET") (str "/users/42") (str "") [] 60 (.ok okJson)).ops
      = [.read (str "cache:/users/42"),
         .write (str "cache:/users/42") ⟨str "j", true⟩ 60] ∧
    str "cache:/users/42" ≠ str "gateway_cache:GET:/users/42:" := by
  decide

/-- C4 (amended): every cache read and write performed by `proxy_request`
uses the key `cache:<path><query>`; the HTTP method does not enter the
key. -/
theorem cache_key_derivation (method path query : Str) (cache : CacheMap)
    (ttl : Int) (up : Except HTTPError UpResponse) (op : CacheOp)
    (hop : op ∈ (proxyRequest method path query cache ttl up).ops) :
    op.key = str "cache:" ++ path ++ query := by
  unfold proxyRequest at hop
  split at hop
  · simp at hop
    subst hop
    rfl
  · split at hop
    · split at hop
      · simp at hop
        subst hop
        rfl
      · simp at hop
    · split at hop
      · simp at hop
        rcases hop with h | h <;> subst h <;> rfl
      · split at hop
        · simp at hop
          subst hop
          rfl
        · simp at hop

/-- C4 amended-claim witness: the write op of a cached GET. -/
theorem cache_key_derivation_witness :
    CacheOp.key (.write (str "cache:/users/42") ⟨str "j", true⟩ 60)
      = str "cache:" ++ str "/users/42" ++ str "" :=
  cache_key_derivation (str "GET") (str "/users/42") (str "") [] 60 (.ok okJson)
    (.write (str "cache:/users/42") ⟨str "j", true⟩ 60) (by decide)

/-! ## C8 — first-match routing -/

lemma stripSlashes_dropTrailingSlash (s : Str) :
    stripSlashes (dropTrailingSlash s) = stripSlashes s := by
  unfold dropTrailingSlash
  cases hrev : s.reverse with
  | nil => rfl
  | cons c t =>
    dsimp only
    by_cases hc : isSlash c
    · rw [if_pos hc]
      unfold stripSlashes
      rw [hrev, List.reverse_reverse, List.dropWhile_cons, if_pos hc]
    · rw [if_neg hc]

lemma predMatches_claim (q pred : Str)
    (hclean : pyStrip (pred.drop 5) = pred.drop 5) :
    predMatches q pred = claimPredMatches q pred := by
  cases hp : startsWithB pred (str "Path=") <;>
    simp [predMatches, claimPredMatches, claimTrimmedPattern, hp, hclean,
      stripSlashes_dropTrailingSlash]

lemma listAny_congr (l : List α) (f g : α → Bool) (h : ∀ a ∈ l, f a = g a) :
    l.any f = l.any g := by
  induction l with
  | nil => rfl
  | cons a t ih =>
    simp only [List.any_cons, h a (by simp),
      ih (fun x hx => h x (by simp [hx]))]

lemma matchRoute_eq_claimMatch : ∀ (routes : List Route) (p : Str),
    (∀ r ∈ routes, ∀ pred ∈ r.predicates, pyStrip (pred.drop 5) = pred.drop 5) →
    (∀ r ∈ routes, r.uri ≠ []) →
    matchRoute routes (stripLeadingSlash p) = claimMatch routes p
  | [], _, _, _ => rfl
  | r :: rs, p, hclean, huri => by
    have hu : r.uri ≠ [] := huri r (by simp)
    have hany : r.predicates.any (predMatches (stripLeadingSlash p))
        = r.predicates.any (claimPredMatches (stripLeadingSlash p)) :=
      listAny_congr _ _ _
        (fun pred hpred => predMatches_claim _ pred (hclean r (by simp) pred hpred))
    simp only [matchRoute, claimMatch, hany]
    cases hm : r.predicates.any (claimPredMatches (stripLeadingSlash p))
    · simp only [hm, Bool.false_eq_true, false_and, if_false]
      exact matchRoute_eq_claimMatch rs p
        (fun r2 h2 pred hpred => hclean r2 (List.mem_cons_of_mem _ h2) pred hpred)
        (fun r2 h2 => huri r2 (List.mem_cons_of_mem _ h2))
    · simp [hm, hu]

/-- C8: with whitespace-clean predicates (as `_load_routes` produces) and
truthy upstream URIs, the code's matcher agrees with the claim's
description — first route in declaration order whose trimmed `Path=`
literal is a prefix of the path after stripping its leading slash — and on
the claim's example `[A with prefix /x, B with prefix /x/y]` the path
`/x/y/z` (received by the handler as `x/y/z`) resolves to `A`'s
upstream. -/
theorem route_table_first_match (routes : List Route) (p : Str)
    (hclean : ∀ r ∈ routes, ∀ pred ∈ r.predicates,
        pyStrip (pred.drop 5) = pred.drop 5)
    (huri : ∀ r ∈ routes, r.uri ≠ []) :
    matchRoute routes (stripLeadingSlash p) = claimMatch routes p ∧
    matchRoute [routeA, routeB] (str "x/y/z") = some (str "http://a") ∧
    claimMatch [routeA, routeB] (str "/x/y/z") = some (str "http://a") :=
  ⟨matchRoute_eq_claimMatch routes p hclean huri, by decide, by decide⟩

/-- C8 witness at the claim's own example routes and path. -/
theorem route_table_first_match_witness :
    matchRoute [routeA, routeB] (stripLeadingSlash (str "/x/y/z"))
      = claimMatch [routeA, routeB] (str "/x/y/z") ∧
    matchRoute [routeA, routeB] (str "x/y/z") = some (str "http://a") ∧
    claimMatch [routeA, routeB] (str "/x/y/z") = some (str "http://a") :=
  route_table_first_match [routeA, routeB] (str "/x/y/z") (by decide) (by decide)

/-! ## C2 — what the client sees when the breaker denies -/

/-- A denied admission aborts the attempt without touching the breaker. -/
lemma clientAttempt_denied (b : Breaker) (now : Int) (out : AttemptOutcome)
    (h : (shouldAllowRequest b now).1 = false) :
    clientAttempt b now out = (.denied b.recoveryTime, b) := by
  have he := shouldAllowRequest_denied b now h
  unfold clientAttempt
  rw [he]
  simp

/-- `proxy_request` propagates an `HTTPException` raised by the upstream
client once the cache has missed. -/
lemma proxyRequest_error (method path query : Str) (cache : CacheMap)
    (ttl : Int) (e : HTTPError)
    (hmiss : proxyCacheHit method path query cache = none) :
    proxyRequest method path query cache ttl (.error e)
      = ⟨.error e, cache,
          if method = str "GET" then [.read (gatewayCacheKey path query)]
          else []⟩ := by
  unfold proxyRequest
  rw [hmiss]

/-- C2 counterexample: with the breaker open and the window not yet
elapsed, `HttpClientManager.request` raises
`503 "Service svc is unavailable. Will retry in 30s"`, but
`process_request`'s blanket `except Exception` catches it and hands the
client the `{"status": 500, "message": "Gateway error: ..."}` envelope —
the 503 status is not preserved. -/
theorem circuit_deny_surface_cex :
    clientRequest (str "svc") 3 (fun _ => 10) (fun _ => .netError) cbOpen3
      = .error ⟨503, str "Service svc is unavailable. Will retry in 30s"⟩ ∧
    (processRequest [routeU] (str "users/1") (str "GET") (str "/users/1")
        (str "") [] 60
        (.error ⟨503, str "Service svc is unavailable. Will retry in 30s"⟩)).1
      = .envelope 500
          (str "Gateway error: 503: Service svc is unavailable. Will retry in 30s") ∧
    (processRequest [routeU] (str "users/1") (str "GET") (str "/users/1")
        (str "") [] 60
        (.error ⟨503, str "Service svc is unavailable. Will retry in 30s"⟩)).1
      ≠ .envelope 503 (str "Service svc is unavailable. Will retry in 30s") := by
  decide

/-- C2 (amended): when the breaker denies admission at the first attempt,
the upstream client raises a 503 whose detail is
`"Service <host> is unavailable. Will retry in <T>s"` with `T` the full
current recovery window (not the remaining time), and `process_request`'s
catch-all converts it into the 500 envelope
`{"status": 500, "message": "Gateway error: <str(e)>"}` instead of
preserving the 503. -/
theorem circuit_deny_maps_to_500 (hostB : Str) (retries : Nat)
    (times : Nat → Int) (oracle : Nat → AttemptOutcome) (b : Breaker)
    (routes : List Route) (fullPath method path query : Str)
    (cache : CacheMap) (ttl : Int) (uri : Str)
    (hdeny : (shouldAllowRequest b (times 0)).1 = false)
    (hmatch : matchRoute routes fullPath = some uri)
    (hmiss : proxyCacheHit method path query cache = none) :
    clientRequest hostB retries times oracle b
      = .error (circuitOpenError hostB b.recoveryTime) ∧
    (processRequest routes fullPath method path query cache ttl
        (.error (circuitOpenError hostB b.recoveryTime))).1
      = .envelope 500
          (str "Gateway error: " ++ strExc (circuitOpenError hostB b.recoveryTime)) := by
  constructor
  · unfold clientRequest
    have hmax : max 1 retries = (max 1 retries - 1) + 1 := by omega
    rw [hmax]
    unfold requestGo
    rw [clientAttempt_denied b (times 0) (oracle 0) hdeny]
  · unfold processRequest
    rw [hmatch, proxyRequest_error method path query cache ttl _ hmiss]

/-- C2 amended-claim witness at the concrete open breaker and users
route. -/
theorem circuit_deny_maps_to_500_witness :
    clientRequest (str "svc") 3 (fun _ => 10) (fun _ => .netError) cbOpen3
      = .error (circuitOpenError (str "svc") cbOpen3.recoveryTime) ∧
    (processRequest [routeU] (str "users/1") (str "GET") (str "/users/1")
        (str "") [] 60
        (.error (circuitOpenError (str "svc") cbOpen3.recoveryTime))).1
      = .envelope 500
          (str "Gateway error: "
            ++ strExc (circuitOpenError (str "svc") cbOpen3.recoveryTime)) :=
  circuit_deny_maps_to_500 (str "svc") 3 (fun _ => 10) (fun _ => .netError)
    cbOpen3 [routeU] (str "users/1") (str "GET") (str "/users/1") (str "")
    [] 60 (str "http://u") (by decide) (by decide) (by decide)

/-! ## C5 — Cache lock discipline (src/services/cache.py)

The `async` control structure of each `CacheManager` method is embedded as
its sequence of atomic events: taking/leaving `self.cache_lock`, local
(non-I/O) work, and awaited remote (Redis) I/O.  Each traced event is in
source order. -/

/-- An event in the execution of a cache method. -/
inductive CEvent where
  | acquire
  | release
  | localOp
  | remoteCall
deriving DecidableEq, Repr

/-- Is some remote I/O event performed at positive lock depth? -/
def remoteUnderLock : Nat → List CEvent → Bool
  | _, [] => false
  | d, .acquire :: es => remoteUnderLock (d + 1) es
  | d, .release :: es => remoteUnderLock (d - 1) es
  | d, .localOp :: es => remoteUnderLock d es
  | d, .remoteCall :: es => decide (0 < d) || remoteUnderLock d es

/-- A trace holds the cache mutex across remote I/O when some remote event
occurs at positive lock depth. -/
def holdsLockAcrossRemote (tr : List CEvent) : Bool :=
  remoteUnderLock 0 tr

/-- `CacheManager.get` (cache.py lines 31-55): under the lock check the
local tier (returning on an unexpired hit); outside the lock `await
self.redis.get(key)`; on a remote hit deserialize and re-enter the lock
for the local insert and prune. -/
def cacheGetTrace (localHit remoteHit : Bool) : List CEvent :=
  [.acquire, .localOp] ++
    (if localHit then [.release]
     else [.release, .remoteCall] ++
       (if remoteHit then [.localOp, .acquire, .localOp, .release] else []))

/-- `CacheManager.set` (cache.py lines 57-66): the whole body, including
the `asyncio.gather` of `self.redis.setex(...)` with the local update, runs
inside `async with self.cache_lock`. -/
def cacheSetTrace : List CEvent :=
  [.acquire, .localOp, .remoteCall, .localOp, .release]

/-- `CacheManager.invalidate` (cache.py lines 74-85): the local deletions,
`await self.redis.keys(...)` and the conditional `await
self.redis.delete(*keys)` all run inside `async with self.cache_lock`. -/
def cacheInvalidateTrace (hasKeys : Bool) : List CEvent :=
  [.acquire, .localOp, .remoteCall] ++
    (if hasKeys then [.remoteCall] else []) ++ [.release]

/-- C5 counterexample: `CacheManager.set` and `CacheManager.invalidate`
perform their Redis calls while holding the cache mutex, contradicting the
claim that their remote-tier calls are made outside the lock. -/
theorem cache_remote_outside_lock_cex :
    holdsLockAcrossRemote cacheSetTrace = true ∧
    holdsLockAcrossRemote (cacheInvalidateTrace true) = true := by
  decide

/-- C5 (amended): only `CacheManager.get` keeps its remote-tier call
outside the cache mutex (its sole in-lock suspension after a remote hit is
the non-I/O local insert); `CacheManager.set` and
`CacheManager.invalidate` both perform their Redis I/O while holding the
lock. -/
theorem cache_lock_discipline (localHit remoteHit hasKeys : Bool) :
    holdsLockAcrossRemote cacheSetTrace = true ∧
    holdsLockAcrossRemote (cacheInvalidateTrace hasKeys) = true ∧
    holdsLockAcrossRemote (cacheGetTrace localHit remoteHit) = false := by
  cases localHit <;> cases remoteHit <;> cases hasKeys <;> decide

/-! ## C9 — TokenValidator (src/services/token.py, lines 14-38) -/

/-- A decoded JWT payload: the optional `exp` claim and the rest of the
claims (opaque to the gateway). -/
structure Payload where
  exp : Option Int
  sub : Str
deriving DecidableEq, Repr

/-- The outcome of `jwt.decode(token, secret, algorithms=[alg])`. -/
inductive DecodeResult where
  | ok (p : Payload)
  | expired
  | invalid
deriving DecidableEq, Repr

/-- `TokenManager.cache`: token string to `(payload, expiry)`. -/
abbrev TokenCache := List (Str × (Payload × Int))

/-- `TokenManager.clean_expired_tokens` (lines 40-43) at time `now`. -/
def cleanExpired (now : Int) (c : TokenCache) : TokenCache :=
  c.filter (fun kv => now < kv.2.2)

/-- The decode-and-cache path of `validate_token` (lines 107-123): on a
successful decode, cache the payload under the token with expiry
`payload.get("exp", now + 300)` and clean expired entries when the cache
exceeds 100 entries; signature-expired and invalid tokens raise 401. -/
def decodeStep (c : TokenCache) (now : Int) (token : Str) (d : DecodeResult) :
    Except HTTPError (Payload × TokenCache) :=
  match d with
  | .ok p =>
    if 100 < (insertD token (p, p.exp.getD (now + 300)) c).length then
      .ok (p, cleanExpired now (insertD token (p, p.exp.getD (now + 300)) c))
    else .ok (p, insertD token (p, p.exp.getD (now + 300)) c)
  | .expired => .error ⟨401, str "Token expired"⟩
  | .invalid => .error ⟨401, str "Invalid token"⟩

/-- `TokenManager.validate_token` (lines 99-123): serve from the cache
only when `self.cache[token][1] > now` (strict); otherwise decode. -/
def validateToken (c : TokenCache) (now : Int) (token : Str)
    (d : DecodeResult) : Except HTTPError (Payload × TokenCache) :=
  match lookupD token c with
  | some pe => if now < pe.2 then .ok (pe.1, c) else decodeStep c now token d
  | none => decodeStep c now token d

lemma insertD_length_replace (k : Str) (w : α) (c : List (Str × α)) (v : α)
    (h : lookupD k c = some v) :
    (insertD k w c).length = c.length := by
  induction c with
  | nil => simp [lookupD] at h
  | cons hd tl ih =>
    obtain ⟨k2, v2⟩ := hd
    by_cases hk : k2 = k
    · simp [insertD, hk]
    · simp only [lookupD, if_neg hk] at h
      simp [insertD, hk, ih h]

lemma lookupD_insertD (k : Str) (w : α) (c : List (Str × α)) :
    lookupD k (insertD k w c) = some w := by
  induction c with
  | nil => simp [insertD, lookupD]
  | cons hd tl ih =>
    obtain ⟨k2, v2⟩ := hd
    by_cases hk : k2 = k
    · simp [insertD, lookupD, hk]
    · simp [insertD, lookupD, hk, ih]

/-- C9: cached claims are returned only while the cached expiry is
strictly in the future; an entry at or past its expiry falls through to
the decode path; a successful decode (with the soft cap not exceeded)
caches the claims under the token with expiry `exp` (or `now + 300` when
absent); and concretely, a token cached with expiry `now + 1` is not
served from the cache at `now + 2` — an expired-signature decode then
yields 401. -/
theorem token_cache_expiry (c : TokenCache) (now : Int) (token : Str)
    (d : DecodeResult) (p q : Payload) (e : Int)
    (h1 : lookupD token c = some (p, e))
    (hlen : c.length ≤ 100) :
    (now < e → validateToken c now token d = .ok (p, c)) ∧
    (e ≤ now → validateToken c now token d = decodeStep c now token d) ∧
    (e ≤ now →
      validateToken c now token (.ok q)
        = .ok (q, insertD token (q, q.exp.getD (now + 300)) c) ∧
      lookupD token (insertD token (q, q.exp.getD (now + 300)) c)
        = some (q, q.exp.getD (now + 300))) ∧
    validateToken [(str "tok", (⟨none, str "u"⟩, 11))] 12 (str "tok") .expired
      = .error ⟨401, str "Token expired"⟩ := by
  have hserve : ∀ d2, e ≤ now →
      validateToken c now token d2 = decodeStep c now token d2 := by
    intro d2 he
    unfold validateToken
    rw [h1]
    exact if_neg (by omega)
  refine ⟨?_, hserve d, ?_, by decide⟩
  · intro hnow
    unfold validateToken
    rw [h1]
    exact if_pos hnow
  · intro he
    have hrep := insertD_length_replace token (q, q.exp.getD (now + 300)) c (p, e) h1
    constructor
    · rw [hserve (.ok q) he]
      unfold decodeStep
      dsimp only
      rw [if_neg (by rw [hrep]; omega)]
    · exact lookupD_insertD token (q, q.exp.getD (now + 300)) c

/-- A cached payload without an `exp` claim, used by the C9 witness. -/
def pU : Payload := ⟨none, str "u"⟩

/-- A freshly decoded payload with `exp = 99`, used by the C9 witness. -/
def pW : Payload := ⟨some 99, str "w"⟩

/-- C9 witness: a token cached at expiry 11 (`now + 1` for `now = 10`),
queried at 12 with an expired-signature decode. -/
theorem token_cache_expiry_witness :
    ((12 : Int) < 11 →
      validateToken [(str "tok", (pU, 11))] 12 (str "tok") .expired
        = .ok (pU, [(str "tok", (pU, 11))])) ∧
    ((11 : Int) ≤ 12 →
      validateToken [(str "tok", (pU, 11))] 12 (str "tok") .expired
        = decodeStep [(str "tok", (pU, 11))] 12 (str "tok") .expired) ∧
    ((11 : Int) ≤ 12 →
      validateToken [(str "tok", (pU, 11))] 12 (str "tok") (.ok pW)
        = .ok (pW,
            insertD (str "tok") (pW, pW.exp.getD (12 + 300))
              [(str "tok", (pU, 11))]) ∧
      lookupD (str "tok")
          (insertD (str "tok") (pW, pW.exp.getD (12 + 300))
            [(str "tok", (pU, 11))])
        = some (pW, pW.exp.getD (12 + 300))) ∧
    validateToken [(str "tok", (⟨none, str "u"⟩, 11))] 12 (str "tok") .expired
      = .error ⟨401, str "Token expired"⟩ :=
  token_cache_expiry [(str "tok", (pU, 11))] 12 (str "tok")
    .expired pU pW 11 (by decide) (by decide)

end Gateway
